import Mathlib

/-!
# Verification of the ns-3 WiFi MPI channel subsystem

Shallow embedding of the WiFi channel MPI processor, its device registry,
the propagation fan-out and the wire-message serialization, translated from
`src/wifi/mpi-channel/wifi-channel-mpi-processor.cc` (the active,
"Simplified Working Version" implementation, whose private state is declared
in `wifi-channel-mpi-processor-clean.h`) and
`src/wifi/mpi-channel/wifi-mpi-message.cc` (with struct layouts from
`wifi-mpi-message.h`).

Modelling conventions:
* `uint32_t` / `uint64_t` become `Nat` with explicit `% 2^32` / `% 2^64`
  where the code can overflow (the device counter, wire integers).
* `double` quantities that only flow through arithmetic-free paths
  (positions, serialized powers) are modelled as `ℚ`; the transcendental
  propagation math (`sqrt`, `log10`) is modelled over `ℝ`.
* `Simulator::Now()` is passed explicitly as a `now : Nat` argument
  (nanoseconds).
* `std::map<uint32_t, RemoteDeviceInfo>` is modelled as an association
  list kept sorted by key; `operator[]`-assignment, `find` and `erase`
  are `mapInsert`, `mapFind` and `mapErase` below.
-/

namespace WifiMpi

/-- 2^32, the modulus of `uint32_t` arithmetic. -/
def U32 : Nat := 4294967296

/-- 2^64, the modulus of `uint64_t` arithmetic. -/
def U64 : Nat := 18446744073709551616

/-- `ns3::Vector3D` position; `double` coordinates modelled as `ℚ`. -/
structure Vector3D where
  x : ℚ
  y : ℚ
  z : ℚ
deriving DecidableEq, Repr

/-- `RemoteDeviceInfo` from `wifi-channel-mpi-processor-clean.h`:
one registry record. The constructor
`RemoteDeviceInfo(id, r, pos)` sets `lastActivity = Simulator::Now()` and
`isActive = true`. -/
structure RemoteDeviceInfo where
  deviceId : Nat
  rank : Nat
  position : Vector3D
  lastActivity : Nat
  isActive : Bool
deriving DecidableEq, Repr

/-- `std::map::find`: first (only) entry with the given key. -/
def mapFind : List (Nat × RemoteDeviceInfo) → Nat → Option RemoteDeviceInfo
  | [], _ => none
  | (k, v) :: t, key => if key = k then some v else mapFind t key

/-- `std::map::operator[] =`: insert at the sorted position, or overwrite
the entry that already carries the key. -/
def mapInsert : List (Nat × RemoteDeviceInfo) → Nat → RemoteDeviceInfo →
    List (Nat × RemoteDeviceInfo)
  | [], key, v => [(key, v)]
  | (k, w) :: t, key, v =>
    if key < k then (key, v) :: (k, w) :: t
    else if key = k then (key, v) :: t
    else (k, w) :: mapInsert t key v

/-- `std::map::erase(iterator)`: drop the (single) entry with the key. -/
def mapErase : List (Nat × RemoteDeviceInfo) → Nat → List (Nat × RemoteDeviceInfo)
  | [], _ => []
  | (k, v) :: t, key => if key = k then t else (k, v) :: mapErase t key

/-- The mutable state of `WifiChannelMpiProcessor` relevant to the registry:
`m_deviceCounter` (a `uint32_t`) and `m_remoteDevices`
(`std::map<uint32_t, RemoteDeviceInfo>`, modelled sorted by key). -/
structure ProcessorState where
  deviceCounter : Nat
  remoteDevices : List (Nat × RemoteDeviceInfo)
deriving DecidableEq, Repr

/-- The freshly constructed processor: counter 0, empty registry. -/
def InitialState : ProcessorState := ⟨0, []⟩

/-- `WifiChannelMpiProcessor::RegisterDevice(sourceRank, position)`:
`uint32_t deviceId = ++m_deviceCounter;` (wrapping `uint32_t` increment),
then `m_remoteDevices[deviceId] = RemoteDeviceInfo(deviceId, sourceRank,
position)`. Returns the assigned id and the new state. -/
def RegisterDevice (s : ProcessorState) (now : Nat) (sourceRank : Nat)
    (position : Vector3D) : Nat × ProcessorState :=
  let deviceId := (s.deviceCounter + 1) % U32
  (deviceId,
   ⟨deviceId,
    mapInsert s.remoteDevices deviceId ⟨deviceId, sourceRank, position, now, true⟩⟩)

/-- `WifiChannelMpiProcessor::UnregisterDevice(deviceId)`: erase the record
if `find` succeeds, otherwise only log a warning. -/
def UnregisterDevice (s : ProcessorState) (deviceId : Nat) : ProcessorState :=
  match mapFind s.remoteDevices deviceId with
  | some _ => ⟨s.deviceCounter, mapErase s.remoteDevices deviceId⟩
  | none => s

/-- Overwrite position and last activity of the entry with the key. -/
def mapSetPosition : List (Nat × RemoteDeviceInfo) → Nat → Vector3D → Nat →
    List (Nat × RemoteDeviceInfo)
  | [], _, _, _ => []
  | (k, v) :: t, deviceId, newPosition, now =>
    if k = deviceId then
      (k, ⟨v.deviceId, v.rank, newPosition, now, v.isActive⟩) ::
        mapSetPosition t deviceId newPosition now
    else (k, v) :: mapSetPosition t deviceId newPosition now

/-- `WifiChannelMpiProcessor::UpdateDevicePosition(deviceId, newPosition)`:
if `find` succeeds, set `position = newPosition` and
`lastActivity = Simulator::Now()`; otherwise only log a warning. The
function takes no event timestamp. -/
def UpdateDevicePosition (s : ProcessorState) (now : Nat) (deviceId : Nat)
    (newPosition : Vector3D) : ProcessorState :=
  match mapFind s.remoteDevices deviceId with
  | some _ => ⟨s.deviceCounter, mapSetPosition s.remoteDevices deviceId newPosition now⟩
  | none => s

/-- `WifiChannelMpiProcessor::GetDevicePosition(deviceId)`: the stored
position, or the default `Vector3D(0, 0, 0)` when the id is unknown. -/
def GetDevicePosition (s : ProcessorState) (deviceId : Nat) : Vector3D :=
  match mapFind s.remoteDevices deviceId with
  | some info => info.position
  | none => ⟨0, 0, 0⟩

/-- `WifiChannelMpiProcessor::GetDeviceCount()`. -/
def GetDeviceCount (s : ProcessorState) : Nat := s.remoteDevices.length

/-- `WifiChannelMpiProcessor::IsDeviceRegistered(deviceId)`. -/
def IsDeviceRegistered (s : ProcessorState) (deviceId : Nat) : Bool :=
  (mapFind s.remoteDevices deviceId).isSome

/-- `WifiChannelMpiProcessor::HandleDeviceRegistrationMessage`: after
parsing the header and `WifiMpiDeviceRegisterMessage`, it always calls
`RegisterDevice(sourceRank, Vector3D(0, 0, 0))`; the message's `deviceId`,
`nodeId` and `phyId` fields are only logged, never used for lookup. -/
def HandleDeviceRegistrationMessage (s : ProcessorState) (now : Nat)
    (sourceRank : Nat) (_nodeId : Nat) (_phyId : Nat) : Nat × ProcessorState :=
  RegisterDevice s now sourceRank ⟨0, 0, 0⟩

/-! ## Propagation engine (active `ProcessTransmission`)

`CalculateDistance`, `CalculateRxPower`, `CalculatePropagationDelay` and the
fan-out loop of `WifiChannelMpiProcessor::ProcessTransmission` from
`wifi-channel-mpi-processor.cc` lines 188–272. The `double` math is
modelled over `ℝ`. -/

/-- `CalculateRxPower`/`CalculatePropagationDelay` share `CalculateDistance`:
`sqrt(dx² + dy² + dz²)`. -/
noncomputable def CalculateDistance (p1 p2 : Vector3D) : ℝ :=
  Real.sqrt (((p1.x - p2.x : ℚ) : ℝ) ^ 2 + ((p1.y - p2.y : ℚ) : ℝ) ^ 2 +
    ((p1.z - p2.z : ℚ) : ℝ) ^ 2)

/-- The speed of light constant `299792458.0` used by the processor. -/
def speedOfLight : ℝ := 299792458

/-- `WifiChannelMpiProcessor::CalculateRxPower`: free-space path loss
`20·log10(4·π·d·f/c)` subtracted from the transmit power in dBm; at
distance `≤ 0` the transmit power is returned unchanged. -/
noncomputable def CalculateRxPower (txPos rxPos : Vector3D)
    (txPowerDbm frequency : ℝ) : ℝ :=
  let distance := CalculateDistance txPos rxPos
  if distance ≤ 0 then txPowerDbm
  else
    txPowerDbm -
      20 * Real.logb 10 (4 * Real.pi * distance * frequency / speedOfLight)

/-- `WifiChannelMpiProcessor::CalculatePropagationDelay`: `distance / c`,
in seconds. -/
noncomputable def CalculatePropagationDelay (txPos rxPos : Vector3D) : ℝ :=
  CalculateDistance txPos rxPos / speedOfLight

/-- `ReceptionInfo` from `wifi-channel-mpi-processor-clean.h`, as filled in
by the fan-out loop of `ProcessTransmission`. -/
structure ReceptionInfo where
  receiverId : Nat
  transmitterId : Nat
  rxPowerDbm : ℝ
  txPowerDbm : ℝ
  delaySeconds : ℝ
  frequency : ℝ

/-- `WifiChannelMpiProcessor::ProcessTransmission(transmitterId, txPosition,
txPowerDbm, frequency)`: iterate over `m_remoteDevices` (ascending key
order of the `std::map`), skip only the transmitter itself, and for every
other registered device build a `ReceptionInfo` and pass it to
`SendReceptionNotification`. The returned list is the sequence of reception
notifications emitted, in loop order. (`SendReceptionNotification` performs
the MPI send for devices on a remote rank.) -/
noncomputable def ProcessTransmission (devices : List (Nat × RemoteDeviceInfo))
    (transmitterId : Nat) (txPosition : Vector3D) (txPowerDbm frequency : ℝ) :
    List ReceptionInfo :=
  devices.filterMap fun kv =>
    if kv.1 = transmitterId then none
    else
      some ⟨kv.1, transmitterId,
        CalculateRxPower txPosition kv.2.position txPowerDbm frequency,
        txPowerDbm,
        CalculatePropagationDelay txPosition kv.2.position,
        frequency⟩

/-! ## Registry operation sequences

A run of the registry, for the id-allocation invariants: each operation is
one public mutation of the device registry. -/

/-- One registry mutation of a run. -/
inductive RegistryOp where
  | reg (now sourceRank : Nat) (position : Vector3D)
  | unreg (deviceId : Nat)
  | upd (now deviceId : Nat) (position : Vector3D)

/-- Apply one registry operation to the processor state. -/
def ApplyOp (s : ProcessorState) : RegistryOp → ProcessorState
  | .reg now sourceRank position => (RegisterDevice s now sourceRank position).2
  | .unreg deviceId => UnregisterDevice s deviceId
  | .upd now deviceId position => UpdateDevicePosition s now deviceId position

/-- The device ids returned by the successive `RegisterDevice` calls of a
run, in call order. -/
def AssignedIds (s : ProcessorState) : List RegistryOp → List Nat
  | [] => []
  | .reg now sourceRank position :: t =>
    (RegisterDevice s now sourceRank position).1 ::
      AssignedIds (RegisterDevice s now sourceRank position).2 t
  | .unreg deviceId :: t => AssignedIds (UnregisterDevice s deviceId) t
  | .upd now deviceId position :: t =>
    AssignedIds (UpdateDevicePosition s now deviceId position) t

/-- The number of `reg` operations in a run. -/
def RegCount : List RegistryOp → Nat
  | [] => 0
  | .reg _ _ _ :: t => RegCount t + 1
  | _ :: t => RegCount t

/-! ## Wire messages (`wifi-mpi-message.cc` / `wifi-mpi-message.h`)

Byte-level model of the `Buffer::Iterator` serialization: a message is a
list of bytes (naturals `< 256`); `WriteHtonU32` / `WriteHtonU64` write
big-endian fixed-width integers, `ReadNtohU32` / `ReadNtohU64` read them
back. -/

/-- `Buffer::Iterator::WriteHtonU32`: four big-endian bytes of the low 32
bits. -/
def writeU32 (x : Nat) : List Nat :=
  [x / 2 ^ 24 % 256, x / 2 ^ 16 % 256, x / 2 ^ 8 % 256, x % 256]

/-- `Buffer::Iterator::WriteHtonU64`: eight big-endian bytes of the low 64
bits. -/
def writeU64 (x : Nat) : List Nat :=
  [x / 2 ^ 56 % 256, x / 2 ^ 48 % 256, x / 2 ^ 40 % 256, x / 2 ^ 32 % 256,
   x / 2 ^ 24 % 256, x / 2 ^ 16 % 256, x / 2 ^ 8 % 256, x % 256]

/-- `Buffer::Iterator::ReadNtohU32`: consume four bytes, big-endian. -/
def readU32 : List Nat → Nat × List Nat
  | b0 :: b1 :: b2 :: b3 :: rest =>
    (((b0 * 256 + b1) * 256 + b2) * 256 + b3, rest)
  | l => (0, l)

/-- `Buffer::Iterator::ReadNtohU64`: consume eight bytes, big-endian. -/
def readU64 : List Nat → Nat × List Nat
  | b0 :: b1 :: b2 :: b3 :: b4 :: b5 :: b6 :: b7 :: rest =>
    (((((((b0 * 256 + b1) * 256 + b2) * 256 + b3) * 256 + b4) * 256 + b5) *
        256 + b6) * 256 + b7, rest)
  | l => (0, l)

/-- `WifiMpiMessageHeader` from `wifi-mpi-message.h`: the eight fields the
struct declares (`messageType`, `messageSize`, `sourceRank`, `targetRank`,
`timestamp`, `sequenceNumber`, `deviceId`, `reserved`). -/
structure WifiMpiMessageHeader where
  messageType : Nat
  messageSize : Nat
  sourceRank : Nat
  targetRank : Nat
  timestamp : Nat
  sequenceNumber : Nat
  deviceId : Nat
  reserved : Nat
deriving DecidableEq, Repr

/-- All header fields fit their declared C++ widths. -/
def WifiMpiMessageHeader.Wf (h : WifiMpiMessageHeader) : Prop :=
  h.messageType < U32 ∧ h.messageSize < U32 ∧ h.sourceRank < U32 ∧
  h.targetRank < U32 ∧ h.timestamp < U64 ∧ h.sequenceNumber < U32 ∧
  h.deviceId < U32 ∧ h.reserved < U32

instance (h : WifiMpiMessageHeader) : Decidable h.Wf := by
  unfold WifiMpiMessageHeader.Wf
  infer_instance

/-- `WifiMpiMessageHeader::Serialize`: writes the eight struct fields, in
declaration order, via `WriteHtonU32` / `WriteHtonU64`. -/
def WifiMpiMessageHeader.Serialize (h : WifiMpiMessageHeader) : List Nat :=
  writeU32 h.messageType ++ writeU32 h.messageSize ++ writeU32 h.sourceRank ++
  writeU32 h.targetRank ++ writeU64 h.timestamp ++ writeU32 h.sequenceNumber ++
  writeU32 h.deviceId ++ writeU32 h.reserved

/-- `WifiMpiMessageHeader::Deserialize`: reads the eight fields back in the
same order; returns the header and the unread remainder. -/
def WifiMpiMessageHeader.Deserialize (l : List Nat) :
    WifiMpiMessageHeader × List Nat :=
  let r1 := readU32 l
  let r2 := readU32 r1.2
  let r3 := readU32 r2.2
  let r4 := readU32 r3.2
  let r5 := readU64 r4.2
  let r6 := readU32 r5.2
  let r7 := readU32 r6.2
  let r8 := readU32 r7.2
  (⟨r1.1, r2.1, r3.1, r4.1, r5.1, r6.1, r7.1, r8.1⟩, r8.2)

/-- `WifiMpiMessageHeader::GetSerializedSize()`:
`8 * sizeof(uint32_t) + sizeof(uint64_t)` (the code's own comment claims
this equals 44). -/
def HeaderSerializedSize : Nat := 8 * 4 + 8

/-- Round a rational to the nearest integer, ties to even: the rounding
IEEE-754 applies to a value already scaled to integer significand
position. -/
def roundHalfEven (q : ℚ) : ℤ :=
  if q - ⌊q⌋ < 1 / 2 then ⌊q⌋
  else if 1 / 2 < q - ⌊q⌋ then ⌊q⌋ + 1
  else if ⌊q⌋ % 2 = 0 then ⌊q⌋ else ⌊q⌋ + 1

/-- `fl`: round a real (here rational) value to the nearest IEEE-754
binary64 `double`: 53-bit significand, round to nearest, ties to even.
The model's exponent is unbounded, which is faithful for every magnitude
inside the binary64 normal range `[2^-1022, 2^1024)` — all powers this
protocol handles (0.1 pW to 2^64 pW, i.e. about 2^-43 to 2^24 W) lie well
inside it, so overflow and subnormal rounding never occur. -/
def fl (q : ℚ) : ℚ :=
  if q = 0 then 0
  else (roundHalfEven (|q| / 2 ^ (Int.log 2 |q| - 52)) : ℚ) *
    2 ^ (Int.log 2 |q| - 52) * (if q < 0 then -1 else 1)

/-- `static_cast<uint64_t>(p * 1e12)`: the `double` product `p * 1e12`
first rounds to the nearest binary64 (`fl`; the factor `1e12` is itself
exactly representable), then the cast truncates the rounded value toward
zero. Modelled for the nonnegative powers the cast is defined on. -/
def PowerToPicowatts (p : ℚ) : Nat := (⌊fl (p * 10 ^ 12)⌋).toNat % U64

/-- `txPowerW = static_cast<double>(powerPW) / 1e12`: the `uint64_t`
converts to the nearest binary64 (`fl`; exact only below 2^53), and the
quotient rounds to the nearest binary64 again. -/
def PicowattsToPower (n : Nat) : ℚ := fl (fl (n : ℚ) / 10 ^ 12)

/-- `WifiMpiTxRequestMessage` from `wifi-mpi-message.h`: header plus
`senderPhyId`, `txPowerW` (a `double`, modelled as `ℚ`), `packetSize`,
`ppduSerializedSize`, `txVectorSerializedSize`. -/
structure WifiMpiTxRequestMessage where
  header : WifiMpiMessageHeader
  senderPhyId : Nat
  txPowerW : ℚ
  packetSize : Nat
  ppduSerializedSize : Nat
  txVectorSerializedSize : Nat
deriving DecidableEq, Repr

/-- `WifiMpiTxRequestMessage::Serialize`: header, then `senderPhyId`, the
power as truncated picowatts (`WriteHtonU64`), then the three sizes. -/
def WifiMpiTxRequestMessage.Serialize (m : WifiMpiTxRequestMessage) : List Nat :=
  m.header.Serialize ++ writeU32 m.senderPhyId ++
  writeU64 (PowerToPicowatts m.txPowerW) ++ writeU32 m.packetSize ++
  writeU32 m.ppduSerializedSize ++ writeU32 m.txVectorSerializedSize

/-- `WifiMpiTxRequestMessage::Deserialize`: reads the fields back;
`txPowerW = static_cast<double>(powerPW) / 1e12` (both the integer-to-double
conversion and the division round to nearest binary64). -/
def WifiMpiTxRequestMessage.Deserialize (l : List Nat) :
    WifiMpiTxRequestMessage × List Nat :=
  let rh := WifiMpiMessageHeader.Deserialize l
  let r1 := readU32 rh.2
  let r2 := readU64 r1.2
  let r3 := readU32 r2.2
  let r4 := readU32 r3.2
  let r5 := readU32 r4.2
  (⟨rh.1, r1.1, PicowattsToPower r2.1, r3.1, r4.1, r5.1⟩, r5.2)

/-- `WifiMpiRxNotificationMessage` from `wifi-mpi-message.h`: header plus
`receiverPhyId`, `rxPowerW` (`double`, modelled as `ℚ`), `rxDuration`,
`packetSize`, `ppduSerializedSize`, `rxSignalInfoSize`. -/
structure WifiMpiRxNotificationMessage where
  header : WifiMpiMessageHeader
  receiverPhyId : Nat
  rxPowerW : ℚ
  rxDuration : Nat
  packetSize : Nat
  ppduSerializedSize : Nat
  rxSignalInfoSize : Nat
deriving DecidableEq, Repr

/-- `WifiMpiRxNotificationMessage::Serialize`: header, `receiverPhyId`,
power as truncated picowatts, `rxDuration` (`WriteHtonU64`), three sizes. -/
def WifiMpiRxNotificationMessage.Serialize (m : WifiMpiRxNotificationMessage) :
    List Nat :=
  m.header.Serialize ++ writeU32 m.receiverPhyId ++
  writeU64 (PowerToPicowatts m.rxPowerW) ++ writeU64 m.rxDuration ++
  writeU32 m.packetSize ++ writeU32 m.ppduSerializedSize ++
  writeU32 m.rxSignalInfoSize

/-- `WifiMpiRxNotificationMessage::Deserialize`. -/
def WifiMpiRxNotificationMessage.Deserialize (l : List Nat) :
    WifiMpiRxNotificationMessage × List Nat :=
  let rh := WifiMpiMessageHeader.Deserialize l
  let r1 := readU32 rh.2
  let r2 := readU64 r1.2
  let r3 := readU64 r2.2
  let r4 := readU32 r3.2
  let r5 := readU32 r4.2
  let r6 := readU32 r5.2
  (⟨rh.1, r1.1, PicowattsToPower r2.1, r3.1, r4.1, r5.1, r6.1⟩, r6.2)

/-- `WifiMpiMessageUtils::ValidateHeader`: reject when `messageType` is
outside `[WIFI_MPI_DEVICE_REGISTER, WIFI_MPI_ERROR_NOTIFY]` = `[100, 204]`
or `messageSize` is outside `[GetSerializedSize(), 1000000]`; the
future-timestamp check only logs a warning and never affects the result. -/
def ValidateHeader (h : WifiMpiMessageHeader) : Bool :=
  if h.messageType < 100 ∨ 204 < h.messageType then false
  else if h.messageSize < HeaderSerializedSize ∨ 1000000 < h.messageSize then
    false
  else true

/-- A power value on the exact encode/decode grid: `p = m / 2^12` watts
with `m * 5^12 < 2^53`. Such a `p` is an exactly representable `double`
that is a whole number `n = m * 5^12 < 2^53` of picowatts, and every
IEEE-754 operation on the wire path (the multiply by `1e12`, the
`uint64_t` conversion, the divide by `1e12`) is exact on it. -/
def PowerWf (p : ℚ) : Prop := ∃ m : Nat, m * 5 ^ 12 < 2 ^ 53 ∧ p = (m : ℚ) / 2 ^ 12

/-- All fields of a TX request fit their declared widths and the power is a
whole number of picowatts. -/
def WifiMpiTxRequestMessage.Wf (m : WifiMpiTxRequestMessage) : Prop :=
  m.header.Wf ∧ m.senderPhyId < U32 ∧ PowerWf m.txPowerW ∧
  m.packetSize < U32 ∧ m.ppduSerializedSize < U32 ∧
  m.txVectorSerializedSize < U32

/-- All fields of an RX notification fit their declared widths and the
power is a whole number of picowatts. -/
def WifiMpiRxNotificationMessage.Wf (m : WifiMpiRxNotificationMessage) : Prop :=
  m.header.Wf ∧ m.receiverPhyId < U32 ∧ PowerWf m.rxPowerW ∧
  m.rxDuration < U64 ∧ m.packetSize < U32 ∧ m.ppduSerializedSize < U32 ∧
  m.rxSignalInfoSize < U32

/-- The device ids a run hands out, as a function of the starting counter
alone (id allocation reads nothing but `m_deviceCounter`). -/
def IdsFrom (c : Nat) : List RegistryOp → List Nat
  | [] => []
  | .reg _ _ _ :: t => ((c + 1) % U32) :: IdsFrom ((c + 1) % U32) t
  | .unreg _ :: t => IdsFrom c t
  | .upd _ _ _ :: t => IdsFrom c t

/-! ## Concrete inputs used by the per-claim counterexamples and witnesses -/

/-- Two devices, both at the origin, on device ranks 1 and 2. -/
def C1devices : List (Nat × RemoteDeviceInfo) :=
  [(1, ⟨1, 1, ⟨0, 0, 0⟩, 0, true⟩), (2, ⟨2, 2, ⟨0, 0, 0⟩, 0, true⟩)]

/-- A TX request whose power, 2⁻⁴⁴ W ≈ 0.057 pW, is an exactly
representable `double` below the wire resolution of one picowatt. -/
def C3msg : WifiMpiTxRequestMessage :=
  ⟨⟨0, 0, 0, 0, 0, 0, 0, 0⟩, 0, 1 / 2 ^ 44, 0, 0, 0⟩

/-- A registry holding device 1 with stored `lastActivity` 100 ns. -/
def C5state : ProcessorState := ⟨1, [(1, ⟨1, 1, ⟨0, 0, 0⟩, 100, true⟩)]⟩

/-- Three devices in ascending id order at increasing x positions. -/
def C6devices : List (Nat × RemoteDeviceInfo) :=
  [(1, ⟨1, 1, ⟨0, 0, 0⟩, 0, true⟩), (2, ⟨2, 1, ⟨10, 0, 0⟩, 0, true⟩),
   (3, ⟨3, 2, ⟨20, 0, 0⟩, 0, true⟩), (4, ⟨4, 2, ⟨30, 0, 0⟩, 0, true⟩)]

/-- A header of valid type whose `messageSize` is exactly 1 MiB
(1 048 576 bytes). -/
def C7header : WifiMpiMessageHeader := ⟨100, 1048576, 0, 0, 0, 0, 0, 0⟩

/-- A run of 2³² + 1 registrations. -/
def C8ops : List RegistryOp := List.replicate (U32 + 1) (.reg 0 1 ⟨0, 0, 0⟩)

/-- A short run: register, deregister, register again. -/
def C8witnessOps : List RegistryOp :=
  [.reg 0 1 ⟨0, 0, 0⟩, .unreg 1, .reg 5 1 ⟨0, 0, 0⟩]

/-- A registry holding one device with id 1 (for the unknown-id claims). -/
def C10state : ProcessorState :=
  (RegisterDevice InitialState 0 1 ⟨4, 5, 6⟩).2

/-! ## Helper lemmas on the registry map -/

theorem mapFind_mapInsert (l : List (Nat × RemoteDeviceInfo))
    (k : Nat) (v : RemoteDeviceInfo) (key : Nat) :
    mapFind (mapInsert l k v) key = if key = k then some v else mapFind l key := by
  induction l with
  | nil => by_cases h : key = k <;> simp [mapInsert, mapFind, h]
  | cons kv t ih =>
    obtain ⟨k', w⟩ := kv
    unfold mapInsert
    by_cases h1 : k < k'
    · by_cases h : key = k <;> simp [h1, mapFind, h]
    · by_cases h2 : k = k'
      · subst h2
        by_cases h : key = k <;> simp [h1, mapFind, h]
      · by_cases h : key = k
        · subst h
          simp [h1, h2, mapFind, ih]
        · simp only [if_neg h1, if_neg h2, mapFind]
          by_cases h' : key = k'
          · have hk : ¬k' = k := fun e => h (h' ▸ e)
            simp [h', hk]
          · simp [h', ih, h]

theorem length_mapInsert_fresh (l : List (Nat × RemoteDeviceInfo))
    (k : Nat) (v : RemoteDeviceInfo) (hf : mapFind l k = none) :
    (mapInsert l k v).length = l.length + 1 := by
  induction l with
  | nil => rfl
  | cons kv t ih =>
    obtain ⟨k', w⟩ := kv
    unfold mapFind at hf
    by_cases h : k = k'
    · simp [h] at hf
    · simp only [if_neg h] at hf
      unfold mapInsert
      by_cases h1 : k < k'
      · simp [h1]
      · simp [h1, h, ih hf]

theorem length_mapInsert_two (l : List (Nat × RemoteDeviceInfo))
    (k1 k2 : Nat) (v1 v2 : RemoteDeviceInfo) (hne : k2 ≠ k1)
    (h1 : mapFind l k1 = none) (h2 : mapFind l k2 = none) :
    (mapInsert (mapInsert l k1 v1) k2 v2).length = l.length + 2 := by
  have hf2 : mapFind (mapInsert l k1 v1) k2 = none := by
    rw [mapFind_mapInsert, if_neg hne]
    exact h2
  rw [length_mapInsert_fresh _ _ _ hf2, length_mapInsert_fresh _ _ _ h1]

theorem mapFind_mapSetPosition (l : List (Nat × RemoteDeviceInfo))
    (deviceId : Nat) (p : Vector3D) (now : Nat) (key : Nat) :
    mapFind (mapSetPosition l deviceId p now) key =
      if key = deviceId then
        (mapFind l key).map fun v => ⟨v.deviceId, v.rank, p, now, v.isActive⟩
      else mapFind l key := by
  induction l with
  | nil => by_cases h : key = deviceId <;> simp [mapSetPosition, mapFind, h]
  | cons kv t ih =>
    obtain ⟨k', w⟩ := kv
    unfold mapSetPosition
    by_cases h1 : k' = deviceId
    · subst h1
      by_cases h : key = k' <;> simp [mapFind, h, ih]
    · by_cases h : key = k'
      · subst h
        have hk : ¬key = deviceId := h1
        simp [mapFind, h1, hk]
      · simp [mapFind, h1, h, ih]

/-! ## C9 -/

/-- C9: querying the position of an unregistered device id signals no
error: `GetDevicePosition` returns the default `Vector3D(0, 0, 0)` for
every id that is not in the registry. -/
theorem C9_unknown_position_is_origin (s : ProcessorState) (deviceId : Nat)
    (h : IsDeviceRegistered s deviceId = false) :
    GetDevicePosition s deviceId = ⟨0, 0, 0⟩ := by
  unfold IsDeviceRegistered at h
  unfold GetDevicePosition
  cases hf : mapFind s.remoteDevices deviceId with
  | none => rfl
  | some v => rw [hf] at h; simp at h

/-- Witness for C9 at the registry holding only device 1: id 7 is unknown
and its queried position is the origin. -/
theorem C9_unknown_position_is_origin_witness :
    IsDeviceRegistered C10state 7 = false ∧
      GetDevicePosition C10state 7 = ⟨0, 0, 0⟩ :=
  ⟨by decide, C9_unknown_position_is_origin C10state 7 (by decide)⟩

/-! ## C10 -/

/-- C10: `UnregisterDevice` and `UpdateDevicePosition` on a device id not
present in the registry leave the processor state (counter and every
record) exactly unchanged. -/
theorem C10_unknown_id_leaves_state_unchanged (s : ProcessorState)
    (now deviceId : Nat) (p : Vector3D)
    (h : mapFind s.remoteDevices deviceId = none) :
    UnregisterDevice s deviceId = s ∧
      UpdateDevicePosition s now deviceId p = s := by
  unfold UnregisterDevice UpdateDevicePosition
  rw [h]
  exact ⟨rfl, rfl⟩

/-- Witness for C10: deleting or moving the unknown id 7 in the one-device
registry changes nothing. -/
theorem C10_unknown_id_leaves_state_unchanged_witness :
    mapFind C10state.remoteDevices 7 = none ∧
      (UnregisterDevice C10state 7 = C10state ∧
        UpdateDevicePosition C10state 99 7 ⟨1, 1, 1⟩ = C10state) :=
  ⟨by decide, C10_unknown_id_leaves_state_unchanged C10state 99 7 ⟨1, 1, 1⟩ (by decide)⟩

/-! ## C5 -/

/-- C5 counterexample: the stored record for device 1 carries
`lastActivity = 100`, yet a position update at the strictly older
simulation time 50 is applied, not discarded: the position changes from
the origin to (1, 2, 3) and `lastActivity` moves backwards to 50. The
claim requires the update to be discarded with the position unchanged. -/
theorem C5_claim_counterexample :
    GetDevicePosition C5state 1 = ⟨0, 0, 0⟩ ∧
      (50 : Nat) < 100 ∧
      (UpdateDevicePosition C5state 50 1 ⟨1, 2, 3⟩).remoteDevices =
        [(1, ⟨1, 1, ⟨1, 2, 3⟩, 50, true⟩)] := by decide

/-- C5 amended: `UpdateDevicePosition` takes no event timestamp; for a
registered device it unconditionally overwrites the stored position and
sets `lastActivity` to the current simulation time, whatever their previous
values were — no staleness check exists. -/
theorem C5_update_overwrites_unconditionally (s : ProcessorState)
    (now deviceId : Nat) (p : Vector3D) (v : RemoteDeviceInfo)
    (h : mapFind s.remoteDevices deviceId = some v) :
    mapFind (UpdateDevicePosition s now deviceId p).remoteDevices deviceId =
      some ⟨v.deviceId, v.rank, p, now, v.isActive⟩ := by
  unfold UpdateDevicePosition
  rw [h]
  simp [mapFind_mapSetPosition, h]

/-- Witness for C5 amended at `C5state`: the update at time 50 overwrites
device 1's record even though its stored `lastActivity` is 100. -/
theorem C5_update_overwrites_unconditionally_witness :
    mapFind C5state.remoteDevices 1 = some ⟨1, 1, ⟨0, 0, 0⟩, 100, true⟩ ∧
      mapFind (UpdateDevicePosition C5state 50 1 ⟨1, 2, 3⟩).remoteDevices 1 =
        some ⟨1, 1, ⟨1, 2, 3⟩, 50, true⟩ :=
  ⟨by decide,
   C5_update_overwrites_unconditionally C5state 50 1 ⟨1, 2, 3⟩
     ⟨1, 1, ⟨0, 0, 0⟩, 100, true⟩ (by decide)⟩

/-! ## C2 -/

/-- C2 counterexample: two registrations with the identical
`(source_rank, node_id, phy_index)` tuple (1, 42, 7) from the empty
registry return the distinct ids 1 and 2 and leave two records; the claim
requires the second call to return 1 again and leave the count at 1. -/
theorem C2_claim_counterexample :
    (HandleDeviceRegistrationMessage InitialState 0 1 42 7).1 = 1 ∧
      (HandleDeviceRegistrationMessage
        (HandleDeviceRegistrationMessage InitialState 0 1 42 7).2 0 1 42 7).1 = 2 ∧
      GetDeviceCount (HandleDeviceRegistrationMessage InitialState 0 1 42 7).2 = 1 ∧
      GetDeviceCount (HandleDeviceRegistrationMessage
        (HandleDeviceRegistrationMessage InitialState 0 1 42 7).2 0 1 42 7).2 = 2 := by
  decide

/-- C2 amended: registration is not idempotent. A second registration with
the same `(source_rank, node_id, phy_index)` tuple allocates the next
counter value as a fresh id, distinct from the first, and inserts a second
record: the device count grows by two over the pair of calls (stated below
the 2³² counter wrap and for ids not already occupying the registry). -/
theorem C2_repeat_registration_not_idempotent (s : ProcessorState)
    (now now' sourceRank nodeId phyId : Nat)
    (hc : s.deviceCounter + 2 < U32)
    (h1 : mapFind s.remoteDevices (s.deviceCounter + 1) = none)
    (h2 : mapFind s.remoteDevices (s.deviceCounter + 2) = none) :
    (HandleDeviceRegistrationMessage s now sourceRank nodeId phyId).1 =
      s.deviceCounter + 1 ∧
    (HandleDeviceRegistrationMessage
        (HandleDeviceRegistrationMessage s now sourceRank nodeId phyId).2
        now' sourceRank nodeId phyId).1 = s.deviceCounter + 2 ∧
    GetDeviceCount (HandleDeviceRegistrationMessage
        (HandleDeviceRegistrationMessage s now sourceRank nodeId phyId).2
        now' sourceRank nodeId phyId).2 = GetDeviceCount s + 2 := by
  have e1 : (s.deviceCounter + 1) % U32 = s.deviceCounter + 1 :=
    Nat.mod_eq_of_lt (by omega)
  have e2 : (s.deviceCounter + 1 + 1) % U32 = s.deviceCounter + 2 :=
    Nat.mod_eq_of_lt (by omega)
  unfold HandleDeviceRegistrationMessage RegisterDevice GetDeviceCount
  simp only [e1, e2]
  refine ⟨trivial, trivial, ?_⟩
  exact length_mapInsert_two s.remoteDevices _ _ _ _ (by omega) h1 h2

/-- Witness for C2 amended: from the empty registry, two registrations
with tuple (1, 42, 7) return ids 1 and 2 and leave two records. -/
theorem C2_repeat_registration_not_idempotent_witness :
    (InitialState.deviceCounter + 2 < U32 ∧
      mapFind InitialState.remoteDevices 1 = none ∧
      mapFind InitialState.remoteDevices 2 = none) ∧
    ((HandleDeviceRegistrationMessage InitialState 3 1 42 7).1 = 1 ∧
      (HandleDeviceRegistrationMessage
        (HandleDeviceRegistrationMessage InitialState 3 1 42 7).2 4 1 42 7).1 = 2 ∧
      GetDeviceCount (HandleDeviceRegistrationMessage
        (HandleDeviceRegistrationMessage InitialState 3 1 42 7).2 4 1 42 7).2 =
        GetDeviceCount InitialState + 2) :=
  ⟨⟨by decide, by decide, by decide⟩,
   C2_repeat_registration_not_idempotent InitialState 3 4 1 42 7
     (by decide) (by decide) (by decide)⟩

/-! ## Helper lemmas on the propagation fan-out -/

theorem calculateDistance_self (p : Vector3D) : CalculateDistance p p = 0 := by
  unfold CalculateDistance
  simp

theorem calculateRxPower_self (p : Vector3D) (txPowerDbm frequency : ℝ) :
    CalculateRxPower p p txPowerDbm frequency = txPowerDbm := by
  unfold CalculateRxPower
  rw [calculateDistance_self]
  simp

theorem calculatePropagationDelay_self (p : Vector3D) :
    CalculatePropagationDelay p p = 0 := by
  unfold CalculatePropagationDelay
  rw [calculateDistance_self]
  simp

/-- The receiver ids of a fan-out are exactly the registered keys other
than the transmitter, in registry order. -/
theorem processTransmission_receiverIds (devices : List (Nat × RemoteDeviceInfo))
    (transmitterId : Nat) (txPosition : Vector3D) (txPowerDbm frequency : ℝ) :
    (ProcessTransmission devices transmitterId txPosition txPowerDbm
        frequency).map ReceptionInfo.receiverId =
      (devices.map Prod.fst).filter (fun k => k ≠ transmitterId) := by
  induction devices with
  | nil => rfl
  | cons kv t ih =>
    by_cases hk : kv.1 = transmitterId <;>
      simp [ProcessTransmission, List.filterMap_cons, hk, ih,
        List.filter_cons] <;>
      simpa [ProcessTransmission] using ih

/-! ## C4 -/

/-- C4: the wire header is not 44 bytes. `GetSerializedSize()` computes
`8 * sizeof(uint32_t) + sizeof(uint64_t)` = 40 (its own comment claims
44), and `Serialize` writes only the eight declared fields — 36 bytes —
with no `header_version` or `body_checksum` field at all. -/
theorem C4_header_is_not_44_bytes :
    HeaderSerializedSize = 40 ∧
      ∀ h : WifiMpiMessageHeader, h.Serialize.length = 36 := by
  refine ⟨rfl, fun h => ?_⟩
  simp [WifiMpiMessageHeader.Serialize, writeU32, writeU64]

/-! ## C7 -/

/-- C7 counterexample: the header with the valid message type 100 and
`total_length` = 1 MiB = 1 048 576 bytes satisfies the claim's acceptance
condition (`total_length ∈ [header_size, 1 MiB]`), yet `ValidateHeader`
rejects it, because the code's limit is 1 000 000 bytes. -/
theorem C7_claim_counterexample :
    ValidateHeader C7header = false ∧
      100 ≤ C7header.messageType ∧ C7header.messageType ≤ 204 ∧
      HeaderSerializedSize ≤ C7header.messageSize ∧
      C7header.messageSize ≤ 1048576 := by decide

/-- C7 amended: `ValidateHeader` accepts exactly the headers whose message
type lies in `[100, 204]` (`WIFI_MPI_DEVICE_REGISTER` to
`WIFI_MPI_ERROR_NOTIFY`) and whose `messageSize` lies in
`[GetSerializedSize(), 1 000 000]` — 10⁶ bytes, not 1 MiB; the result is
independent of the timestamp (a future timestamp is only logged). -/
theorem C7_validate_header_characterization (h : WifiMpiMessageHeader)
    (t : Nat) :
    ValidateHeader ⟨h.messageType, h.messageSize, h.sourceRank, h.targetRank,
        t, h.sequenceNumber, h.deviceId, h.reserved⟩ = ValidateHeader h ∧
      (ValidateHeader h = true ↔
        100 ≤ h.messageType ∧ h.messageType ≤ 204 ∧
          40 ≤ h.messageSize ∧ h.messageSize ≤ 1000000) := by
  refine ⟨rfl, ?_⟩
  unfold ValidateHeader HeaderSerializedSize
  split_ifs with h1 h2 <;> simp <;> omega

/-- Witness for C7 amended at a header accepted by the code: type 103
(TX_REQUEST), size 64, arbitrary timestamps. -/
theorem C7_validate_header_characterization_witness :
    ValidateHeader ⟨103, 64, 1, 0, 999, 1, 2, 0⟩ =
        ValidateHeader ⟨103, 64, 1, 0, 5, 1, 2, 0⟩ ∧
      (ValidateHeader ⟨103, 64, 1, 0, 5, 1, 2, 0⟩ = true ↔
        100 ≤ 103 ∧ 103 ≤ 204 ∧ 40 ≤ 64 ∧ 64 ≤ 1000000) :=
  C7_validate_header_characterization ⟨103, 64, 1, 0, 5, 1, 2, 0⟩ 999

/-! ## C6 -/

/-- C6: for a registry in `std::map` order (strictly ascending keys), the
reception notifications of one processed transmission are emitted in
strictly ascending receiver-device-id order; the fan-out is a pure
function of the registry snapshot, so the order is deterministic. -/
theorem C6_notifications_in_ascending_id_order
    (devices : List (Nat × RemoteDeviceInfo)) (transmitterId : Nat)
    (txPosition : Vector3D) (txPowerDbm frequency : ℝ)
    (hs : devices.Pairwise (fun a b => a.1 < b.1)) :
    ((ProcessTransmission devices transmitterId txPosition txPowerDbm
        frequency).map ReceptionInfo.receiverId).Pairwise (· < ·) := by
  rw [processTransmission_receiverIds]
  exact ((List.pairwise_map.mpr hs).filter _)

/-- Witness for C6 at the four-device registry of the spec's fan-out
scenario: device 1 transmits and the receiver ids come out as 2, 3, 4. -/
theorem C6_notifications_in_ascending_id_order_witness :
    C6devices.Pairwise (fun a b => a.1 < b.1) ∧
      ((ProcessTransmission C6devices 1 ⟨0, 0, 0⟩ 16 2400000000).map
        ReceptionInfo.receiverId).Pairwise (· < ·) :=
  ⟨by decide,
   C6_notifications_in_ascending_id_order C6devices 1 ⟨0, 0, 0⟩ 16 2400000000
     (by decide)⟩

/-! ## C1 -/

/-- C1 counterexample: two devices at the same position, registry default
reception threshold −85 dBm (the `ReceptionThreshold` attribute default of
the processor). Device 1 transmits at −100 dBm; the computed received
power at device 2 is −100 dBm, below the threshold, yet exactly one
RX notification — for device 2 — is emitted. The claim requires that no
notification be emitted for a below-threshold device. -/
theorem C1_claim_counterexample :
    ProcessTransmission C1devices 1 ⟨0, 0, 0⟩ (-100) 2400000000 =
        [⟨2, 1, -100, -100, 0, 2400000000⟩] ∧
      (-100 : ℝ) < -85 := by
  constructor
  · unfold ProcessTransmission C1devices
    simp only [List.filterMap_cons, List.filterMap_nil]
    norm_num
    rw [calculateRxPower_self, calculatePropagationDelay_self]
    exact ⟨rfl, rfl⟩
  · norm_num

/-- C1 amended: the active `ProcessTransmission` applies no frequency or
threshold gating at all: an RX notification is emitted for exactly the
registered devices `r` with `r.device_id ≠ d`, whatever the computed
received power and whatever frequencies are involved. (Frequency and
threshold gates, plus a 1000 m range cut-off, exist only in the dead
backup variant `wifi-channel-mpi-processor-backup.cc`.) -/
theorem C1_fanout_is_unconditional (devices : List (Nat × RemoteDeviceInfo))
    (transmitterId : Nat) (txPosition : Vector3D) (txPowerDbm frequency : ℝ)
    (rid : Nat) :
    rid ∈ (ProcessTransmission devices transmitterId txPosition txPowerDbm
        frequency).map ReceptionInfo.receiverId ↔
      rid ∈ devices.map Prod.fst ∧ rid ≠ transmitterId := by
  rw [processTransmission_receiverIds, List.mem_filter]
  simp

/-! ## Helper lemmas for the id-allocation run model -/

theorem counter_unregister (s : ProcessorState) (deviceId : Nat) :
    (UnregisterDevice s deviceId).deviceCounter = s.deviceCounter := by
  unfold UnregisterDevice
  cases mapFind s.remoteDevices deviceId <;> rfl

theorem counter_updatePosition (s : ProcessorState) (now deviceId : Nat)
    (p : Vector3D) :
    (UpdateDevicePosition s now deviceId p).deviceCounter = s.deviceCounter := by
  unfold UpdateDevicePosition
  cases mapFind s.remoteDevices deviceId <;> rfl

/-- Id allocation reads nothing but the counter. -/
theorem assignedIds_eq_idsFrom (ops : List RegistryOp) (s : ProcessorState) :
    AssignedIds s ops = IdsFrom s.deviceCounter ops := by
  induction ops generalizing s with
  | nil => rfl
  | cons op t ih =>
    cases op with
    | reg now sourceRank position =>
      unfold AssignedIds IdsFrom
      rw [ih]
      rfl
    | unreg deviceId =>
      unfold AssignedIds IdsFrom
      rw [ih, counter_unregister]
    | upd now deviceId position =>
      unfold AssignedIds IdsFrom
      rw [ih, counter_updatePosition]

theorem idsFrom_pairwise_lt (ops : List RegistryOp) (c : Nat)
    (h : c + RegCount ops < U32) :
    (IdsFrom c ops).Pairwise (· < ·) ∧ ∀ i ∈ IdsFrom c ops, c < i := by
  induction ops generalizing c with
  | nil => exact ⟨List.Pairwise.nil, by intro i hi; cases hi⟩
  | cons op t ih =>
    cases op with
    | reg now sourceRank position =>
      have hR : RegCount (RegistryOp.reg now sourceRank position :: t) =
          RegCount t + 1 := rfl
      rw [hR] at h
      have e : (c + 1) % U32 = c + 1 := Nat.mod_eq_of_lt (by omega)
      unfold IdsFrom
      rw [e]
      obtain ⟨hp, hb⟩ := ih (c + 1) (by omega)
      refine ⟨List.Pairwise.cons hb hp, ?_⟩
      intro i hi
      rcases List.mem_cons.mp hi with h' | h'
      · omega
      · exact Nat.lt_trans (Nat.lt_succ_self c) (hb i h')
    | unreg deviceId =>
      have hR : RegCount (RegistryOp.unreg deviceId :: t) = RegCount t := rfl
      rw [hR] at h
      exact ih c h
    | upd now deviceId position =>
      have hR : RegCount (RegistryOp.upd now deviceId position :: t) =
          RegCount t := rfl
      rw [hR] at h
      exact ih c h

/-- Closed form of the ids of a pure registration run. -/
theorem idsFrom_replicate (n : Nat) (c : Nat) :
    IdsFrom c (List.replicate n (RegistryOp.reg 0 1 ⟨0, 0, 0⟩)) =
      (List.range n).map (fun k => (c + k + 1) % U32) := by
  induction n generalizing c with
  | zero => rfl
  | succ m ih =>
    rw [List.replicate_succ]
    unfold IdsFrom
    rw [ih ((c + 1) % U32), List.range_succ_eq_map]
    simp only [List.map_cons, List.map_map]
    congr 1
    simp only [List.map_inj_left, Function.comp_apply, List.mem_range]
    intro k _
    rw [Nat.add_assoc, Nat.mod_add_mod]
    congr 1
    omega

/-! ## C8 -/

/-- C8 counterexample: the device counter is a wrapping `uint32_t`, so a
run of 2³² + 1 registrations hands out ids 1, 2, …, 2³² − 1, 0, 1: the
sequence is neither strictly increasing nor free of repetitions (id 1 is
assigned to the first and to the last registration). -/
theorem C8_claim_counterexample :
    ¬ (AssignedIds InitialState C8ops).Pairwise (· < ·) ∧
      ¬ (AssignedIds InitialState C8ops).Nodup := by
  have hids : AssignedIds InitialState C8ops =
      (List.range (U32 + 1)).map (fun k => (k + 1) % U32) := by
    rw [assignedIds_eq_idsFrom]
    show IdsFrom 0 C8ops = _
    unfold C8ops
    rw [idsFrom_replicate]
    simp only [Nat.zero_add]
  have hlen : (AssignedIds InitialState C8ops).length = U32 + 1 := by
    rw [hids]
    simp
  have hget : ∀ (i : Nat) (hi : i < (AssignedIds InitialState C8ops).length),
      (AssignedIds InitialState C8ops)[i] = (i + 1) % U32 := by
    intro i hi
    have hi' : i < U32 + 1 := by rw [hlen] at hi; exact hi
    simp [hids]
  constructor
  · intro hp
    have h1 : (0 : Nat) < (AssignedIds InitialState C8ops).length := by
      rw [hlen]; omega
    have h2 : U32 - 1 < (AssignedIds InitialState C8ops).length := by
      rw [hlen]; omega
    have := List.pairwise_iff_getElem.mp hp 0 (U32 - 1) h1 h2
      (by unfold U32; omega)
    rw [hget 0 h1, hget (U32 - 1) h2] at this
    have e1 : (0 + 1) % U32 = 1 := by unfold U32; decide
    have e2 : (U32 - 1 + 1) % U32 = 0 := by unfold U32; decide
    rw [e1, e2] at this
    omega
  · intro hn
    have h1 : (0 : Nat) < (AssignedIds InitialState C8ops).length := by
      rw [hlen]; omega
    have h2 : U32 < (AssignedIds InitialState C8ops).length := by
      rw [hlen]; omega
    have := List.pairwise_iff_getElem.mp hn 0 U32 h1 h2 (by unfold U32; omega)
    rw [hget 0 h1, hget U32 h2] at this
    have e1 : (0 + 1) % U32 = 1 := by unfold U32; decide
    have e2 : (U32 + 1) % U32 = 1 := by
      rw [Nat.add_mod_left]
      unfold U32; decide
    rw [e1, e2] at this
    exact this rfl

/-- C8 amended: as long as a run performs fewer than 2³² registrations —
before the `uint32_t` counter wraps — the ids returned by successive
register calls are strictly increasing and pairwise distinct, across any
interleaving with deregistrations and position updates (deregistering a
device never recycles its id). -/
theorem C8_ids_strictly_increasing (ops : List RegistryOp)
    (h : RegCount ops < U32) :
    (AssignedIds InitialState ops).Pairwise (· < ·) ∧
      (AssignedIds InitialState ops).Nodup := by
  rw [assignedIds_eq_idsFrom]
  have hp := (idsFrom_pairwise_lt ops 0 (by omega)).1
  exact ⟨hp, hp.imp Nat.ne_of_lt⟩

/-- Witness for C8 amended: a register / deregister / register run hands
out the ids 1 then 2 — increasing and distinct even though device 1 was
deregistered in between. -/
theorem C8_ids_strictly_increasing_witness :
    RegCount C8witnessOps < U32 ∧
      ((AssignedIds InitialState C8witnessOps).Pairwise (· < ·) ∧
        (AssignedIds InitialState C8witnessOps).Nodup) :=
  ⟨by decide, C8_ids_strictly_increasing C8witnessOps (by decide)⟩

/-! ## Helper lemmas on the byte-level serialization -/

theorem readU32_writeU32 (x : Nat) (rest : List Nat) :
    readU32 (writeU32 x ++ rest) = (x % U32, rest) := by
  simp only [writeU32, List.cons_append, List.nil_append, readU32, U32,
    Prod.mk.injEq]
  exact ⟨by omega, trivial⟩

theorem readU64_writeU64 (x : Nat) (rest : List Nat) :
    readU64 (writeU64 x ++ rest) = (x % U64, rest) := by
  simp only [writeU64, List.cons_append, List.nil_append, readU64, U64,
    Prod.mk.injEq]
  exact ⟨by omega, trivial⟩

/-- Header serialize-then-parse recovers a well-formed header exactly and
leaves the trailing bytes untouched. -/
theorem header_roundtrip (h : WifiMpiMessageHeader) (hw : h.Wf)
    (rest : List Nat) :
    WifiMpiMessageHeader.Deserialize (h.Serialize ++ rest) = (h, rest) := by
  obtain ⟨h1, h2, h3, h4, h5, h6, h7, h8⟩ := hw
  unfold WifiMpiMessageHeader.Serialize WifiMpiMessageHeader.Deserialize
  simp only [List.append_assoc, readU32_writeU32, readU64_writeU64]
  rw [Nat.mod_eq_of_lt h1, Nat.mod_eq_of_lt h2, Nat.mod_eq_of_lt h3,
    Nat.mod_eq_of_lt h4, Nat.mod_eq_of_lt h5, Nat.mod_eq_of_lt h6,
    Nat.mod_eq_of_lt h7, Nat.mod_eq_of_lt h8]

/-- Rounding a value that is already an integer changes nothing. -/
theorem roundHalfEven_intCast (k : ℤ) : roundHalfEven (k : ℚ) = k := by
  unfold roundHalfEven
  rw [Int.floor_intCast]
  norm_num

theorem fl_zero : fl 0 = 0 := by
  unfold fl
  norm_num

/-- A nonnegative dyadic value with a numerator below 2⁵³ is an exactly
representable binary64, and `fl` leaves it unchanged. -/
theorem fl_eq_self (a : Nat) (s : ℤ) (ha : a < 2 ^ 53) :
    fl ((a : ℚ) * 2 ^ s) = (a : ℚ) * 2 ^ s := by
  rcases Nat.eq_zero_or_pos a with h0 | hpos
  · subst h0
    simp [fl]
  have ha0 : (0 : ℚ) < (a : ℚ) := by exact_mod_cast hpos
  have h2s : (0 : ℚ) < (2 : ℚ) ^ s := zpow_pos (by norm_num) s
  have hq : (0 : ℚ) < (a : ℚ) * 2 ^ s := mul_pos ha0 h2s
  have hub : (a : ℚ) * 2 ^ s < (2 : ℚ) ^ (s + 53) := by
    rw [zpow_add₀ (by norm_num : (2 : ℚ) ≠ 0)]
    have h53 : (a : ℚ) < (2 : ℚ) ^ (53 : ℤ) := by
      have h1 : ((a : ℚ)) < ((2 ^ 53 : ℕ) : ℚ) := by exact_mod_cast ha
      have h2 : ((2 ^ 53 : ℕ) : ℚ) = (2 : ℚ) ^ (53 : ℤ) := by
        push_cast
        norm_num
      rw [h2] at h1
      exact h1
    calc (a : ℚ) * 2 ^ s < (2 : ℚ) ^ (53 : ℤ) * 2 ^ s :=
          mul_lt_mul_of_pos_right h53 h2s
    _ = 2 ^ s * 2 ^ (53 : ℤ) := mul_comm _ _
  have hL : Int.log 2 ((a : ℚ) * 2 ^ s) ≤ s + 52 := by
    by_contra hcon
    push_neg at hcon
    have hso : (2 : ℚ) ^ (s + 53) ≤ (2 : ℚ) ^ Int.log 2 ((a : ℚ) * 2 ^ s) :=
      zpow_le_zpow_right₀ (by norm_num) (by omega)
    have hlow : ((2 : ℕ) : ℚ) ^ Int.log 2 ((a : ℚ) * 2 ^ s) ≤ (a : ℚ) * 2 ^ s :=
      Int.zpow_log_le_self (by norm_num) hq
    have hlow' : (2 : ℚ) ^ Int.log 2 ((a : ℚ) * 2 ^ s) ≤ (a : ℚ) * 2 ^ s := by
      exact_mod_cast hlow
    exact absurd (lt_of_lt_of_le hub (le_trans hso hlow')) (lt_irrefl _)
  unfold fl
  rw [if_neg (ne_of_gt hq), abs_of_pos hq, if_neg (not_lt.mpr hq.le), mul_one]
  have hint : (a : ℚ) * 2 ^ s / 2 ^ (Int.log 2 ((a : ℚ) * 2 ^ s) - 52) =
      ((a * 2 ^ (s - (Int.log 2 ((a : ℚ) * 2 ^ s) - 52)).toNat : ℕ) : ℚ) := by
    rw [div_eq_iff (ne_of_gt (zpow_pos (by norm_num) _))]
    push_cast
    rw [← zpow_natCast (2 : ℚ) (s - (Int.log 2 ((a : ℚ) * 2 ^ s) - 52)).toNat,
      Int.toNat_of_nonneg (by omega)]
    rw [mul_assoc, ← zpow_add₀ (by norm_num : (2 : ℚ) ≠ 0)]
    have he : s - (Int.log 2 ((a : ℚ) * 2 ^ s) - 52) +
        (Int.log 2 ((a : ℚ) * 2 ^ s) - 52) = s := by omega
    rw [he]
  rw [hint]
  have hrc : roundHalfEven
      ((a * 2 ^ (s - (Int.log 2 ((a : ℚ) * 2 ^ s) - 52)).toNat : ℕ) : ℚ) =
      ((a * 2 ^ (s - (Int.log 2 ((a : ℚ) * 2 ^ s) - 52)).toNat : ℕ) : ℤ) := by
    have h := roundHalfEven_intCast
      ((a * 2 ^ (s - (Int.log 2 ((a : ℚ) * 2 ^ s) - 52)).toNat : ℕ) : ℤ)
    simpa using h
  rw [hrc]
  push_cast
  rw [← zpow_natCast (2 : ℚ) (s - (Int.log 2 ((a : ℚ) * 2 ^ s) - 52)).toNat,
    Int.toNat_of_nonneg (by omega)]
  rw [mul_assoc, ← zpow_add₀ (by norm_num : (2 : ℚ) ≠ 0)]
  have he : s - (Int.log 2 ((a : ℚ) * 2 ^ s) - 52) +
      (Int.log 2 ((a : ℚ) * 2 ^ s) - 52) = s := by omega
  rw [he]

/-- An integer below 2⁵³ converts to binary64 exactly. -/
theorem fl_natCast (n : Nat) (hn : n < 2 ^ 53) : fl (n : ℚ) = (n : ℚ) := by
  have h := fl_eq_self n 0 hn
  simpa using h

/-- Encoding a grid power `m / 2^12` W: the double multiply by `1e12` is
exact (its value `m * 5^12` is an integer below 2⁵³) and the truncating
cast stores exactly `m * 5^12` picowatts. -/
theorem powerToPicowatts_grid (m : Nat) (hm : m * 5 ^ 12 < 2 ^ 53) :
    PowerToPicowatts ((m : ℚ) / 2 ^ 12) = m * 5 ^ 12 := by
  unfold PowerToPicowatts
  have h1 : ((m : ℚ) / 2 ^ 12) * 10 ^ 12 = ((m * 5 ^ 12 : ℕ) : ℚ) := by
    push_cast
    field_simp
    ring
  rw [h1, fl_natCast _ hm, Int.floor_natCast]
  simp only [Int.toNat_natCast]
  exact Nat.mod_eq_of_lt (lt_trans hm (by norm_num [U64]))

/-- Decoding `m * 5^12` picowatts: the `uint64_t`-to-double conversion and
the divide by `1e12` are both exact, recovering `m / 2^12` W. -/
theorem picowattsToPower_grid (m : Nat) (hm : m * 5 ^ 12 < 2 ^ 53) :
    PicowattsToPower (m * 5 ^ 12) = (m : ℚ) / 2 ^ 12 := by
  have hm53 : m < 2 ^ 53 :=
    lt_of_le_of_lt (Nat.le_mul_of_pos_right m (by norm_num)) hm
  have hdy : (m : ℚ) / 2 ^ 12 = (m : ℚ) * 2 ^ (-12 : ℤ) := by
    rw [zpow_neg, div_eq_mul_inv]
    norm_num
  unfold PicowattsToPower
  rw [fl_natCast _ hm]
  have h2 : ((m * 5 ^ 12 : ℕ) : ℚ) / 10 ^ 12 = (m : ℚ) / 2 ^ 12 := by
    push_cast
    field_simp
    ring
  rw [h2, hdy, fl_eq_self m (-12) hm53, ← hdy]

theorem picowattsToPower_zero : PicowattsToPower 0 = 0 := by
  unfold PicowattsToPower
  rw [Nat.cast_zero, fl_zero, zero_div, fl_zero]

/-- 2⁻⁴⁴ W scales to 5¹²/2³² ≈ 0.057 pW — the double multiply is exact
here too — and the `uint64_t` cast truncates it to 0. -/
theorem powerToPicowatts_sub_picowatt :
    PowerToPicowatts (1 / 2 ^ 44) = 0 := by
  unfold PowerToPicowatts
  have h1 : (1 / 2 ^ 44 : ℚ) * 10 ^ 12 = ((244140625 : ℕ) : ℚ) * 2 ^ (-32 : ℤ) := by
    rw [zpow_neg]
    push_cast
    norm_num
  rw [h1, fl_eq_self 244140625 (-32) (by norm_num)]
  have h2 : ⌊((244140625 : ℕ) : ℚ) * 2 ^ (-32 : ℤ)⌋ = 0 := by
    rw [Int.floor_eq_zero_iff]
    constructor
    · positivity
    · rw [zpow_neg]
      push_cast
      rw [inv_eq_one_div, mul_one_div, div_lt_one] <;> norm_num
  rw [h2]
  rfl

/-! ## C3 -/

/-- C3 counterexample: a TX request with `txPowerW` = 2⁻⁴⁴ W ≈ 0.057 pW,
an exactly representable `double`. The product with `1e12` is the exact
double 5¹²/2³² < 1, which `static_cast<uint64_t>` truncates to 0, so the
parsed message carries power 0 and differs from the serialized one: the
serialize-then-parse round trip is not the identity for every field value,
and the power is not recovered exactly. -/
theorem C3_claim_counterexample :
    (WifiMpiTxRequestMessage.Deserialize C3msg.Serialize).1.txPowerW = 0 ∧
      C3msg.txPowerW = 1 / 2 ^ 44 ∧
      (WifiMpiTxRequestMessage.Deserialize C3msg.Serialize).1 ≠ C3msg := by
  have hd : WifiMpiTxRequestMessage.Deserialize C3msg.Serialize =
      (⟨⟨0, 0, 0, 0, 0, 0, 0, 0⟩, 0, 0, 0, 0, 0⟩, []) := by
    rw [← List.append_nil C3msg.Serialize]
    unfold C3msg WifiMpiTxRequestMessage.Serialize
      WifiMpiTxRequestMessage.Deserialize
    simp only [List.append_assoc]
    rw [header_roundtrip ⟨0, 0, 0, 0, 0, 0, 0, 0⟩ (by decide)]
    simp only [powerToPicowatts_sub_picowatt, readU32_writeU32,
      readU64_writeU64]
    norm_num [picowattsToPower_zero]
  rw [hd]
  refine ⟨rfl, rfl, fun h => ?_⟩
  have h' := congrArg WifiMpiTxRequestMessage.txPowerW h
  norm_num [C3msg] at h'

/-- C3 amended: serialize-then-parse is the identity for every defined
message body whose integer fields fit their declared widths and whose
power lies on the exact grid `m / 2^12` W with `m * 5^12 < 2^53` — the
`double` powers that are a whole number of picowatts for which the IEEE
multiply by `1e12`, the `uint64_t` conversion and the divide by `1e12`
are all exact. Off that grid precision is lost: the wire carries
watts × 10¹² rounded to binary64 and then truncated — not rounded — to a
`uint64_t`, so sub-picowatt values collapse (counterexample above) and
picowatt counts at or above 2⁵³ are perturbed by the double rounding. -/
theorem C3_roundtrip_identity_on_exact_grid
    (t : WifiMpiTxRequestMessage) (x : WifiMpiRxNotificationMessage)
    (r1 r2 : List Nat) (ht : t.Wf) (hx : x.Wf) :
    WifiMpiTxRequestMessage.Deserialize (t.Serialize ++ r1) = (t, r1) ∧
      WifiMpiRxNotificationMessage.Deserialize (x.Serialize ++ r2) = (x, r2) := by
  obtain ⟨hth, ht1, ⟨n, hn, hp⟩, ht2, ht3, ht4⟩ := ht
  obtain ⟨hxh, hx1, ⟨m, hm, hq⟩, hx2, hx3, hx4, hx5⟩ := hx
  constructor
  · unfold WifiMpiTxRequestMessage.Serialize WifiMpiTxRequestMessage.Deserialize
    simp only [List.append_assoc]
    rw [header_roundtrip t.header hth]
    simp only [readU32_writeU32, readU64_writeU64]
    rw [hp, powerToPicowatts_grid n hn]
    rw [Nat.mod_eq_of_lt ht1,
      Nat.mod_eq_of_lt (lt_trans hn (by norm_num [U64])),
      Nat.mod_eq_of_lt ht2, Nat.mod_eq_of_lt ht3, Nat.mod_eq_of_lt ht4]
    rw [picowattsToPower_grid n hn, ← hp]
  · unfold WifiMpiRxNotificationMessage.Serialize
      WifiMpiRxNotificationMessage.Deserialize
    simp only [List.append_assoc]
    rw [header_roundtrip x.header hxh]
    simp only [readU32_writeU32, readU64_writeU64]
    rw [hq, powerToPicowatts_grid m hm]
    rw [Nat.mod_eq_of_lt hx1,
      Nat.mod_eq_of_lt (lt_trans hm (by norm_num [U64])),
      Nat.mod_eq_of_lt hx2, Nat.mod_eq_of_lt hx3, Nat.mod_eq_of_lt hx4,
      Nat.mod_eq_of_lt hx5]
    rw [picowattsToPower_grid m hm, ← hq]

/-- Witness for C3 amended: a concrete TX request carrying 3 W
(= 12288/2¹² W, i.e. 3 × 10¹² pW) and a concrete RX notification carrying
2⁻¹² W (= 5¹² pW) round trip exactly. -/
theorem C3_roundtrip_identity_on_exact_grid_witness :
    WifiMpiTxRequestMessage.Deserialize
        ((⟨⟨103, 64, 1, 0, 7, 9, 2, 0⟩, 4, 3, 1500, 20, 30⟩ :
          WifiMpiTxRequestMessage).Serialize ++ [17]) =
        (⟨⟨103, 64, 1, 0, 7, 9, 2, 0⟩, 4, 3, 1500, 20, 30⟩, [17]) ∧
      WifiMpiRxNotificationMessage.Deserialize
        ((⟨⟨200, 72, 0, 1, 8, 10, 3, 0⟩, 6, 1 / 2 ^ 12, 400, 800, 20, 10⟩ :
          WifiMpiRxNotificationMessage).Serialize ++ [23]) =
        (⟨⟨200, 72, 0, 1, 8, 10, 3, 0⟩, 6, 1 / 2 ^ 12, 400, 800, 20, 10⟩, [23]) :=
  C3_roundtrip_identity_on_exact_grid
    ⟨⟨103, 64, 1, 0, 7, 9, 2, 0⟩, 4, 3, 1500, 20, 30⟩
    ⟨⟨200, 72, 0, 1, 8, 10, 3, 0⟩, 6, 1 / 2 ^ 12, 400, 800, 20, 10⟩
    [17] [23]
    ⟨by decide, by decide, ⟨12288, by norm_num, by norm_num⟩,
      by decide, by decide, by decide⟩
    ⟨by decide, by decide, ⟨1, by norm_num, by norm_num⟩,
      by decide, by decide, by decide, by decide⟩

end WifiMpi
